import Mathlib

/-!
Verification development for the instaappfe social-feed client.

The definitions below are a shallow embedding of the TypeScript source:
* `src/src/lib/api.ts` — the `ApiClient` transport (`request`,
  `createPostWithFile`, `logout`, token management) and the dashboard feed
  handlers (`handleLike`, `handleComment`, `loadMorePosts`);
* `src/src/config/api.ts` — `API_CONFIG.TIMEOUT` and the data model;
* the `PostForm` component — `handleSubmit` client-side validation.

JavaScript values appearing in response bodies are modelled by an inductive
`Json` type with JS truthiness; `a || b` is modelled by `jsOr`-style helpers.
Stateful React `setPosts` updates are modelled as pure functions on the list
of posts; each handler is a function of its inputs and of the remote
outcome.
-/

/-- A JSON/JavaScript value as it appears in a decoded response body. -/
inductive Json where
  | null
  | bool (b : Bool)
  | num (n : Int)
  | str (s : String)
  | arr (elems : List Json)
  | obj (fields : List (String × Json))

namespace Json

/-- JavaScript truthiness of a JSON value (`null`, `false`, `0`, `""` are
falsy; arrays and objects are always truthy). -/
def truthy : Json → Bool
  | .null => false
  | .bool b => b
  | .num n => n != 0
  | .str s => s != ""
  | .arr _ => true
  | .obj _ => true

/-- Property access `body.key`: `some v` when `body` is an object with the
key, `none` (JS `undefined`) otherwise. -/
def lookup : Json → String → Option Json
  | .obj fields, key => fields.lookup key
  | _, _ => none

end Json

/-- JS `a || b` where `a` is a possibly-undefined JSON value: yields `a`
when present and truthy, else `b`. -/
def jsOr (a : Option Json) (b : Json) : Json :=
  match a with
  | some v => if v.truthy then v else b
  | none => b

/-- JS `a || b` where `a` is a possibly-undefined string-valued field
(for instance `error.message` and `response.message` fallbacks). -/
def jsOrStr (a : Option String) (b : String) : String :=
  match a with
  | some s => if s = "" then b else s
  | none => b

/-- The `ApiResponse` envelope shape returned by `request` in
`src/src/lib/api.ts` (fields absent in JS are `none`). -/
structure Envelope where
  success : Bool
  data : Option Json := none
  message : Option Json := none
  errors : Option Json := none

/-- Envelope construction from a settled HTTP response, lines 49-61 of
`src/src/lib/api.ts`: on `!response.ok` return
a failure envelope with the message field of the body (with a generic fallback)
and its errors field;
on ok return `{success:true, data: data.data || data, message: data.message}`. -/
def mkEnvelope (ok : Bool) (body : Json) : Envelope :=
  if ok then
    { success := true
      data := some (jsOr (body.lookup "data") body)
      message := body.lookup "message" }
  else
    { success := false
      message := some (jsOr (body.lookup "message") (.str "An error occurred"))
      errors := body.lookup "errors" }

/-- Outcome of `fetch` + `response.json()` as observed by the `try` block of
`request`: either both settle (with the HTTP ok flag and decoded body), or an
`Error` is thrown (connection failure, abort — `name = "AbortError"` —,
malformed JSON body), or a non-`Error` value is thrown. -/
inductive FetchOutcome where
  | settled (ok : Bool) (body : Json)
  | threw (name : String) (message : String)
  | threwNonError

/-- The outcome is a transport-level fault (the `catch` branch runs). -/
def FetchOutcome.isFault : FetchOutcome → Bool
  | .settled _ _ => false
  | .threw _ _ => true
  | .threwNonError => true

/-- Method `ApiClient.request` (lines 36-79 of `src/src/lib/api.ts`) as a function
of the fetch outcome: settled responses go through envelope construction;
a thrown `Error` named `AbortError` maps to the timeout message; any other
`Error` maps to its message (or a generic network message); a non-`Error`
throw maps to a generic message. It never re-throws. -/
def request (outcome : FetchOutcome) : Envelope :=
  match outcome with
  | .settled ok body => mkEnvelope ok body
  | .threw name msg =>
      if name = "AbortError" then
        { success := false, message := some (.str "Request timeout. Please try again.") }
      else
        { success := false, message := some (.str (jsOrStr (some msg) "Network error occurred")) }
  | .threwNonError =>
      { success := false, message := some (.str "An unexpected error occurred") }

/-- Method `ApiClient.createPostWithFile` (lines 154-218 of `src/src/lib/api.ts`):
the multipart variant; its settle/throw handling is textually identical to
`request`. -/
def createPostWithFile (outcome : FetchOutcome) : Envelope :=
  match outcome with
  | .settled ok body => mkEnvelope ok body
  | .threw name msg =>
      if name = "AbortError" then
        { success := false, message := some (.str "Request timeout. Please try again.") }
      else
        { success := false, message := some (.str (jsOrStr (some msg) "Network error occurred")) }
  | .threwNonError =>
      { success := false, message := some (.str "An unexpected error occurred") }

/-- Constant `API_CONFIG.TIMEOUT` from `src/src/config/api.ts` line 12. -/
def API_TIMEOUT : Nat := 10000

/-- The abort controller wiring of `request` (lines 37-45): a timer set at
call time aborts the in-flight request when it fires. Given the time (ms)
at which the underlying call would settle (`none` = never) and the outcome
it would settle with, the outcome actually observed by the `try` block: an
`AbortError` throw when the call has not settled within `API_TIMEOUT`. -/
def fetchWithTimeout (settleTime : Option Nat) (result : FetchOutcome) : FetchOutcome :=
  match settleTime with
  | none => .threw "AbortError" "The operation was aborted."
  | some t => if t > API_TIMEOUT then .threw "AbortError" "The operation was aborted." else result

/-! ## Feed data model (`src/src/config/api.ts`) -/

/-- The embedded `user` reference on posts and comments. -/
structure PostUser where
  id : Nat
  name : String
deriving Repr, DecidableEq

/-- Permissions carried by the profile user, read by the dashboard handlers
(`user?.permissions.can_like_post` etc.). -/
structure Permissions where
  can_like_post : Bool
  can_create_post : Bool
  can_create_comment : Bool
deriving Repr, DecidableEq

/-- The authenticated user as used by the dashboard handlers. -/
structure User where
  id : Nat
  name : String
  email : String
  permissions : Permissions
deriving Repr, DecidableEq

/-- Record `Comment` from `src/src/config/api.ts`. -/
structure Comment where
  id : Nat
  post_id : Nat
  user_id : Nat
  content : String
  created_at : Nat
  user : PostUser
deriving Repr, DecidableEq

/-- Record `CommentResponse` from `src/src/config/api.ts`: the server wraps a
created comment under a `comment` key (`response.data!.comment`). -/
structure CommentResponse where
  comment : Comment
deriving Repr, DecidableEq

/-- Record `Post` from `src/src/config/api.ts`. Counts are JS numbers and the
handlers subtract from them, so they are modelled as `Int`. -/
structure Post where
  id : Nat
  user_id : Nat
  content : String
  image_url : String
  likes_count : Int
  comments_count : Int
  created_at : Nat
  updated_at : Nat
  user : PostUser
  comments : List Comment
  is_liked : Bool
deriving Repr, DecidableEq

/-! ## Like handler (`handleLike`, dashboard feed in `src/src/lib/api.ts`) -/

/-- The optimistic `setPosts` update of `handleLike` (lines 409-418): toggle
`is_liked` and adjust `likes_count` by ±1 on the post with the given id. -/
def likeOptimistic (postId : Nat) (posts : List Post) : List Post :=
  posts.map fun p =>
    if p.id = postId then
      { p with
        is_liked := !p.is_liked
        likes_count := if p.is_liked then p.likes_count - 1 else p.likes_count + 1 }
    else p

/-- The revert `setPosts` update of `handleLike` (lines 427-436 and 441-450):
write the `is_liked`/`likes_count` values captured from the trigger-time
`post` snapshot onto the post with the given id. -/
def likeRevert (postId : Nat) (snapLiked : Bool) (snapCount : Int)
    (posts : List Post) : List Post :=
  posts.map fun p =>
    if p.id = postId then { p with is_liked := snapLiked, likes_count := snapCount } else p

/-- Outcome of the remote like/unlike call as observed by `handleLike`:
either an envelope (`success` flag plus optional `message`) or a throw
caught by the `catch` block. -/
inductive RemoteResult where
  | resp (success : Bool) (message : Option String)
  | fault
deriving Repr, DecidableEq

/-- Post list and `setError` message produced by a like handler run. -/
structure LikeHandlerState where
  posts : List Post
  error : Option String
deriving Repr, DecidableEq

/-- Handler `handleLike` (lines 398-453 of the dashboard feed in
`src/src/lib/api.ts`) run to completion on one remote outcome: permission
guard, find the trigger-time `post` snapshot, optimistic toggle, remote
call (`unlikePost` when the snapshot was liked, `likePost` otherwise —
both outcomes share the shape `RemoteResult`), and on `success=false` or a
throw, revert to the snapshot values and set an error. -/
def handleLike (user : Option User) (postId : Nat) (posts : List Post)
    (remote : RemoteResult) : LikeHandlerState :=
  if !(match user with | some u => u.permissions.can_like_post | none => false) then
    { posts := posts, error := some "You do not have permission to like posts." }
  else
    match posts.find? (fun p => p.id = postId) with
    | none => { posts := posts, error := none }
    | some post =>
      let optimistic := likeOptimistic postId posts
      match remote with
      | .resp true _ => { posts := optimistic, error := none }
      | .resp false msg =>
          { posts := likeRevert postId post.is_liked post.likes_count optimistic
            error := some (jsOrStr msg "Failed to update like") }
      | .fault =>
          { posts := likeRevert postId post.is_liked post.likes_count optimistic
            error := some "Network error. Please try again." }

/-! ## Comment handler (`handleComment`, dashboard feed in `src/src/lib/api.ts`) -/

/-- The optimistic `setPosts` update of `handleComment` (lines 472-481):
append the provisional comment and increment `comments_count` on the post
with the given id. -/
def commentOptimistic (postId : Nat) (temp : Comment) (posts : List Post) : List Post :=
  posts.map fun post =>
    if post.id = postId then
      { post with
        comments := post.comments ++ [temp]
        comments_count := post.comments_count + 1 }
    else post

/-- The success `setPosts` update of `handleComment` (lines 493-503):
replace the comment whose id equals the provisional id by the
server-returned comment; `comments_count` is not touched. -/
def commentConfirm (postId : Nat) (tempId : Nat) (server : Comment)
    (posts : List Post) : List Post :=
  posts.map fun post =>
    if post.id = postId then
      { post with
        comments := post.comments.map fun c => if c.id = tempId then server else c }
    else post

/-- The failure `setPosts` update of `handleComment` (lines 506-515 and
520-529): remove the comment with the provisional id and decrement
`comments_count` on the post with the given id. -/
def commentRollback (postId : Nat) (tempId : Nat) (posts : List Post) : List Post :=
  posts.map fun post =>
    if post.id = postId then
      { post with
        comments := post.comments.filter (fun c => c.id != tempId)
        comments_count := post.comments_count - 1 }
    else post

/-- Outcome of `apiClient.createComment` as observed by `handleComment`:
an envelope whose `data`, when present, wraps the server comment, or a
throw caught by the `catch` block. -/
inductive CommentRemote where
  | resp (success : Bool) (data : Option CommentResponse) (message : Option String)
  | fault
deriving Repr, DecidableEq

/-- Post list, comment input buffers, `setError` message and whether a
network request was issued, after a comment handler run. The buffers model
the `newComment` map (`none` = key absent). -/
structure CommentHandlerState where
  posts : List Post
  buffers : Nat → Option String
  error : Option String
  requested : Bool

/-- JS `String.prototype.trim`: strip leading and trailing whitespace.
Defined on the character list so that it evaluates by kernel reduction. -/
def jsTrim (s : String) : String :=
  ⟨((s.data.dropWhile Char.isWhitespace).reverse.dropWhile Char.isWhitespace).reverse⟩

/-- The provisional `tempComment` synthesized by `handleComment`
(lines 459-469): locally generated id (`tempId` models
`Date.now() + Math.random()`), the submitted trimmed text, and the current
user as author (`now` models the creation timestamp). -/
def mkTempComment (u : User) (postId : Nat) (tempId : Nat) (now : Nat)
    (text : String) : Comment :=
  { id := tempId, post_id := postId, user_id := u.id, content := text
    created_at := now, user := { id := u.id, name := u.name } }

/-- Handler `handleComment` (lines 455-532 of the dashboard feed in
`src/src/lib/api.ts`) run to completion on one remote outcome: guard on
`!commentText || !user` (trimmed buffer empty or absent, or no user),
synthesize the provisional comment, optimistic append + count increment,
clear the input buffer, then on `response.success && response.data` replace
the provisional comment by the server one, else remove it and decrement the
count, setting an error. -/
def handleComment (user : Option User) (postId : Nat) (buffers : Nat → Option String)
    (posts : List Post) (tempId : Nat) (now : Nat) (remote : CommentRemote) :
    CommentHandlerState :=
  let commentText := (buffers postId).map jsTrim
  match commentText, user with
  | some text, some u =>
    if text = "" then
      { posts := posts, buffers := buffers, error := none, requested := false }
    else
      let temp : Comment := mkTempComment u postId tempId now text
      let posts1 := commentOptimistic postId temp posts
      let buffers1 := fun k => if k = postId then some "" else buffers k
      match remote with
      | .resp success data msg =>
          match success, data with
          | true, some d =>
              { posts := commentConfirm postId temp.id d.comment posts1
                buffers := buffers1, error := none, requested := true }
          | _, _ =>
              { posts := commentRollback postId temp.id posts1
                buffers := buffers1
                error := some (jsOrStr msg "Failed to add comment")
                requested := true }
      | .fault =>
          { posts := commentRollback postId temp.id posts1
            buffers := buffers1
            error := some "Network error. Please try again."
            requested := true }
  | _, _ => { posts := posts, buffers := buffers, error := none, requested := false }

/-! ## Pagination cursor (`fetchPosts` / `loadMorePosts`, dashboard feed in
`src/src/lib/api.ts`) -/

/-- Record `Pagination` from `src/src/config/api.ts`. -/
structure Pagination where
  total : Nat
  per_page : Nat
  current_page : Nat
  last_page : Nat
deriving Repr, DecidableEq

/-- Record `PostsResponse` from `src/src/config/api.ts`. -/
structure PostsResponse where
  posts : List Post
  pagination : Pagination
deriving Repr, DecidableEq

/-- The remote outcome of `apiClient.getPosts` as observed by
`loadMorePosts`: an envelope whose `data`, when present, carries a posts
page (the `Array.isArray` check is subsumed by the typed `data`). -/
structure PostsRemote where
  success : Bool
  data : Option PostsResponse
  message : Option String
deriving Repr, DecidableEq

/-- The dashboard state read and written by `loadMorePosts`. -/
structure FeedState where
  posts : List Post
  pagination : Option Pagination
  hasMorePosts : Bool
  isLoadingMore : Bool
  error : Option String
deriving Repr, DecidableEq

/-- Constant `API_CONFIG.ENDPOINTS.POSTS` from `src/src/config/api.ts`
(the variant paired with `src/src/lib/api.ts`). -/
def API_POSTS_ENDPOINT : String := "/post"

/-- The endpoint that `ApiClient.getPosts` (lines 143-145 of
`src/src/lib/api.ts`) requests. The method signature declares no
parameters and its body passes only `API_CONFIG.ENDPOINTS.POSTS` to
`request`, with no page query string. The dashboard nonetheless calls
`apiClient.getPosts(1, 10)` (line 277) and
`apiClient.getPosts(nextPage, 10)` (line 302); JavaScript silently
discards arguments passed to a zero-parameter method, so the two
parameters here model exactly those discarded call-site arguments: the
requested endpoint does not depend on them. -/
def getPostsEndpoint (page : Nat) (perPage : Nat) : String :=
  API_POSTS_ENDPOINT

/-- The `nextPage` argument that `loadMorePosts` (lines 296-302) computes
and passes to `getPosts`: `none` when the guard
`if (!pagination || !hasMorePosts || isLoadingMore) return` refuses,
`some (current_page + 1)` otherwise. `getPosts` discards this argument
(see `getPostsEndpoint`); it never reaches the network. -/
def loadMoreNextPage (s : FeedState) : Option Nat :=
  match s.pagination with
  | none => none
  | some pg => if !s.hasMorePosts || s.isLoadingMore then none else some (pg.current_page + 1)

/-- Handler `loadMorePosts` (lines 296-317) run to completion on one remote
outcome: when the guard passes, call `getPosts` (whose request is the
constant unparameterized posts endpoint); on a successful response with
data, append the posts of the page, adopt the response pagination and
recompute `hasMorePosts := current_page < last_page`; else set an error
and leave the cursor unchanged. -/
def loadMorePostsStep (s : FeedState) (remote : PostsRemote) : FeedState :=
  match loadMoreNextPage s with
  | none => s
  | some _ =>
    match remote.success, remote.data with
    | true, some d =>
        { s with
          posts := s.posts ++ d.posts
          pagination := some d.pagination
          hasMorePosts := d.pagination.current_page < d.pagination.last_page }
    | _, _ => { s with error := some (jsOrStr remote.message "Failed to load more posts") }

/-! ## Session store (`setToken`/`getToken`/`removeToken`/`logout` in
`src/src/lib/api.ts`) -/

/-- The two credential locations kept by the client: durable local storage
(the `auth_token` key) and the `auth_token` cookie. -/
structure SessionStore where
  localToken : Option String
  cookieToken : Option String
deriving Repr, DecidableEq

/-- Method `ApiClient.setToken` (lines 110-116): in a browser context
(the `typeof window` guard) write the token to both locations;
otherwise a no-op. -/
def setToken (hasWindow : Bool) (token : String) (st : SessionStore) : SessionStore :=
  if hasWindow then { localToken := some token, cookieToken := some token } else st

/-- Method `ApiClient.removeToken` (lines 125-131): in a browser context clear
both locations; otherwise a no-op. -/
def removeToken (hasWindow : Bool) (st : SessionStore) : SessionStore :=
  if hasWindow then { localToken := none, cookieToken := none } else st

/-- Method `ApiClient.isAuthenticated` (lines 133-135) via `getToken`
(lines 118-123): true when a browser context is available and local
storage holds a token. -/
def isAuthenticated (hasWindow : Bool) (st : SessionStore) : Bool :=
  if hasWindow then st.localToken.isSome else false

/-- The effect of `ApiClient.logout` (lines 97-107) on the session store:
the remote `POST /logout` envelope is awaited, and `removeToken` runs only
when `response.success` holds; the response is returned unchanged. -/
def logout (hasWindow : Bool) (response : Envelope) (st : SessionStore) :
    SessionStore × Envelope :=
  if response.success then (removeToken hasWindow st, response) else (st, response)

/-! ## Post form validation (`PostForm.handleSubmit`) -/

/-- What `PostForm.handleSubmit` does before any network call: `rejected`
when the guard `if (!formData.content.trim() || !selectedFile)` fires (the
validation message is surfaced via `onError` and no request is issued),
`submitted` otherwise (the multipart request is issued with the content and
the selected file). The file is opaque to the guard and modelled by its
name. -/
inductive SubmitAction where
  | rejected (message : String)
  | submitted (content : String) (file : String)
deriving Repr, DecidableEq

/-- Method `PostForm.handleSubmit` (in the `PostForm` component) up to the point
the network request is issued. -/
def postFormSubmit (content : String) (selectedFile : Option String) : SubmitAction :=
  match selectedFile with
  | some file =>
      if jsTrim content = "" then .rejected "Please fill in all fields and select an image"
      else .submitted content file
  | none => .rejected "Please fill in all fields and select an image"

/-! ## Helper lemmas -/

/-- A map whose function fixes every element of the list is the identity. -/
theorem map_of_forall_eq {α : Type} (f : α → α) (l : List α)
    (h : ∀ a ∈ l, f a = a) : l.map f = l := by
  induction l with
  | nil => rfl
  | cons a as ih =>
      simp only [List.map_cons, h a (by simp)]
      exact congrArg _ (ih fun b hb => h b (by simp [hb]))

/-- Reverting to the trigger-time snapshot right after the optimistic like
toggle restores the original list, provided every post carrying the target
id is the snapshot post. -/
theorem likeRevert_optimistic_eq (postId : Nat) (post : Post) (posts : List Post)
    (huniq : ∀ q ∈ posts, q.id = postId → q = post) :
    likeRevert postId post.is_liked post.likes_count (likeOptimistic postId posts) = posts := by
  induction posts with
  | nil => rfl
  | cons p ps ih =>
      have ih2 := ih fun q hq hid => huniq q (by simp [hq]) hid
      simp only [likeOptimistic, likeRevert, List.map_cons] at ih2 ⊢
      by_cases h : p.id = postId
      · have hpe : p = post := huniq p (by simp) h
        subst hpe
        simp only [if_pos h, ih2]
      · simp only [if_neg h, ih2]

/-- C1: a like/unlike on a post in the feed first toggles `is_liked` and
adjusts `likes_count` by ±1 optimistically; when the remote call returns
`success=false` or faults, `handleLike` restores the post exactly to its
pre-toggle values and surfaces the envelope message (or the generic
network-error message). -/
theorem C1_like_toggle_and_revert
    (u : User) (postId : Nat) (posts : List Post) (post : Post) (msg : Option String)
    (hperm : u.permissions.can_like_post = true)
    (hfind : posts.find? (fun p => p.id = postId) = some post)
    (huniq : ∀ q ∈ posts, q.id = postId → q = post) :
    (∀ q ∈ likeOptimistic postId posts, q.id = postId →
        q.is_liked = !post.is_liked ∧
        q.likes_count = (if post.is_liked then post.likes_count - 1 else post.likes_count + 1)) ∧
    handleLike (some u) postId posts (RemoteResult.resp false msg) =
      { posts := posts, error := some (jsOrStr msg "Failed to update like") } ∧
    handleLike (some u) postId posts RemoteResult.fault =
      { posts := posts, error := some "Network error. Please try again." } := by
  refine ⟨?_, ?_, ?_⟩
  · intro q hq hid
    simp only [likeOptimistic, List.mem_map] at hq
    obtain ⟨p, hp, rfl⟩ := hq
    by_cases h : p.id = postId
    · have hpe : p = post := huniq p hp h
      subst hpe
      simp [h]
    · simp only [if_neg h] at hid
      exact absurd hid h
  · simp only [handleLike, hperm, hfind, Bool.not_true, Bool.false_eq_true, if_false,
      likeRevert_optimistic_eq postId post posts huniq]
  · simp only [handleLike, hperm, hfind, Bool.not_true, Bool.false_eq_true, if_false,
      likeRevert_optimistic_eq postId post posts huniq]

/-! ## Concrete example values used by witnesses -/

/-- An authenticated user with all feed permissions. -/
def exUser : User :=
  { id := 1, name := "Ann", email := "ann@example.com"
    permissions := { can_like_post := true, can_create_post := true, can_create_comment := true } }

/-- A concrete pre-existing comment on the example post. -/
def exComment : Comment :=
  { id := 7, post_id := 42, user_id := 3, content := "first", created_at := 50
    user := { id := 3, name := "Cy" } }

/-- A concrete feed post: `id = 42`, `isLiked = false`, `likesCount = 10`. -/
def exPost : Post :=
  { id := 42, user_id := 2, content := "hello", image_url := "img"
    likes_count := 10, comments_count := 1, created_at := 100, updated_at := 100
    user := { id := 2, name := "Bob" }, comments := [exComment], is_liked := false }

/-- Witness for C1 at the concrete scenario of the claim: post 42 with
`isLiked=false, likesCount=10` optimistically becomes `(true, 11)`; a
`success=false` response and a fault both revert the feed to the original
post and surface a message. -/
theorem C1_witness :
    (likeOptimistic 42 [exPost]).map (fun p => (p.is_liked, p.likes_count)) = [(true, 11)] ∧
    handleLike (some exUser) 42 [exPost] (RemoteResult.resp false (some "No like for you")) =
      { posts := [exPost], error := some "No like for you" } ∧
    handleLike (some exUser) 42 [exPost] RemoteResult.fault =
      { posts := [exPost], error := some "Network error. Please try again." } :=
  ⟨by decide,
   (C1_like_toggle_and_revert exUser 42 [exPost] exPost (some "No like for you")
      (by decide) (by decide) (by decide)).2.1,
   (C1_like_toggle_and_revert exUser 42 [exPost] exPost none
      (by decide) (by decide) (by decide)).2.2⟩

/-- Removing the provisional comment right after the optimistic append
restores the original list, provided every post carrying the target id is
the snapshot post and the provisional id is fresh for it. -/
theorem commentRollback_optimistic_eq (postId : Nat) (post : Post) (temp : Comment)
    (posts : List Post)
    (huniq : ∀ q ∈ posts, q.id = postId → q = post)
    (hfresh : ∀ c ∈ post.comments, c.id ≠ temp.id) :
    commentRollback postId temp.id (commentOptimistic postId temp posts) = posts := by
  induction posts with
  | nil => rfl
  | cons p ps ih =>
      have ih2 := ih fun q hq hid => huniq q (by simp [hq]) hid
      simp only [commentOptimistic, commentRollback, List.map_cons] at ih2 ⊢
      by_cases h : p.id = postId
      · have hpe : p = post := huniq p (by simp) h
        subst hpe
        simp only [if_pos h, ih2, List.cons.injEq, and_true]
        have hfilter : (p.comments ++ [temp]).filter (fun c => c.id != temp.id) = p.comments := by
          rw [List.filter_append]
          have h1 : p.comments.filter (fun c => c.id != temp.id) = p.comments :=
            List.filter_eq_self.mpr fun c hc => by
              simpa using hfresh c hc
          have h2 : [temp].filter (fun c => c.id != temp.id) = [] := by simp
          rw [h1, h2, List.append_nil]
        simp [hfilter]
      · simp only [if_neg h, ih2]

/-- Replacing the provisional comment by the server comment right after the
optimistic append yields exactly the optimistic append of the server
comment (counts untouched by the replacement), provided every post carrying
the target id is the snapshot post and the provisional id is fresh for
it. -/
theorem commentConfirm_optimistic_eq (postId : Nat) (post : Post) (temp server : Comment)
    (posts : List Post)
    (huniq : ∀ q ∈ posts, q.id = postId → q = post)
    (hfresh : ∀ c ∈ post.comments, c.id ≠ temp.id) :
    commentConfirm postId temp.id server (commentOptimistic postId temp posts) =
      posts.map (fun q =>
        if q.id = postId then
          { q with
            comments := q.comments ++ [server]
            comments_count := q.comments_count + 1 }
        else q) := by
  induction posts with
  | nil => rfl
  | cons p ps ih =>
      have ih2 := ih fun q hq hid => huniq q (by simp [hq]) hid
      simp only [commentOptimistic, commentConfirm, List.map_cons] at ih2 ⊢
      by_cases h : p.id = postId
      · have hpe : p = post := huniq p (by simp) h
        subst hpe
        simp only [if_pos h, ih2, List.cons.injEq, and_true]
        have hmap : (p.comments ++ [temp]).map (fun c => if c.id = temp.id then server else c) =
            p.comments ++ [server] := by
          rw [List.map_append]
          have h1 : p.comments.map (fun c => if c.id = temp.id then server else c) = p.comments :=
            map_of_forall_eq _ _ fun c hc => if_neg (hfresh c hc)
          simp [h1]
        simp [hmap]
      · simp only [if_neg h, ih2]

/-- C2: a comment submission with non-empty trimmed text appends a
provisional comment, increments `comments_count` and clears the input
buffer before the remote call resolves; on success the provisional comment
is replaced (by its provisional id) by the server comment with the count
left at its incremented value, leaving exactly one comment with the
server id and the submitted content and no residual provisional entry; on
failure the provisional comment is removed by id and the count
decremented, restoring the post list exactly. -/
theorem C2_comment_lifecycle
    (u : User) (postId : Nat) (buffers : Nat → Option String) (posts : List Post)
    (post : Post) (tempId now : Nat) (raw text : String) (server : Comment)
    (msg : Option String) (failData : Option CommentResponse)
    (hbuf : buffers postId = some raw) (htext : jsTrim raw = text) (hne : text ≠ "")
    (hfind : posts.find? (fun p => p.id = postId) = some post)
    (huniq : ∀ q ∈ posts, q.id = postId → q = post)
    (hfresh : ∀ c ∈ post.comments, c.id ≠ tempId)
    (hsid : server.id ≠ tempId)
    (hsfresh : ∀ c ∈ post.comments, c.id ≠ server.id)
    (hscontent : server.content = text) :
    (∀ remote, (handleComment (some u) postId buffers posts tempId now remote).buffers postId
        = some "") ∧
    (∀ q ∈ commentOptimistic postId (mkTempComment u postId tempId now text) posts,
        q.id = postId →
          q.comments = post.comments ++ [mkTempComment u postId tempId now text] ∧
          q.comments_count = post.comments_count + 1) ∧
    (∀ q ∈ (handleComment (some u) postId buffers posts tempId now
              (CommentRemote.resp true (some ⟨server⟩) msg)).posts,
        q.id = postId →
          q.comments = post.comments ++ [server] ∧
          q.comments_count = post.comments_count + 1 ∧
          q.comments.filter (fun c => c.id == server.id) = [server] ∧
          server.content = text ∧
          q.comments.filter (fun c => c.id == tempId) = []) ∧
    (handleComment (some u) postId buffers posts tempId now
        (CommentRemote.resp false failData msg)).posts = posts ∧
    (handleComment (some u) postId buffers posts tempId now
        (CommentRemote.resp false failData msg)).error
      = some (jsOrStr msg "Failed to add comment") ∧
    (handleComment (some u) postId buffers posts tempId now CommentRemote.fault).posts
      = posts := by
  have hguard : (buffers postId).map jsTrim = some text := by rw [hbuf]; simpa using htext
  have htempid : (mkTempComment u postId tempId now text).id = tempId := rfl
  refine ⟨?_, ?_, ?_, ?_, ?_, ?_⟩
  · intro remote
    cases remote with
    | resp success data m =>
        cases success <;> cases data <;>
          simp [handleComment, hguard, hne]
    | fault => simp [handleComment, hguard, hne]
  · intro q hq hid
    simp only [commentOptimistic, List.mem_map] at hq
    obtain ⟨p, hp, rfl⟩ := hq
    by_cases h : p.id = postId
    · have hpe : p = post := huniq p hp h
      subst hpe
      simp [h]
    · simp only [if_neg h] at hid
      exact absurd hid h
  · intro q hq hid
    have hconf := commentConfirm_optimistic_eq postId post
      (mkTempComment u postId tempId now text) server posts huniq
      (by simpa [mkTempComment] using hfresh)
    have hposts : (handleComment (some u) postId buffers posts tempId now
          (CommentRemote.resp true (some ⟨server⟩) msg)).posts
        = commentConfirm postId (mkTempComment u postId tempId now text).id server
            (commentOptimistic postId (mkTempComment u postId tempId now text) posts) := by
      simp [handleComment, hguard, hne]
    rw [hposts, hconf] at hq
    simp only [List.mem_map] at hq
    obtain ⟨p, hp, rfl⟩ := hq
    by_cases h : p.id = postId
    · have hpe : p = post := huniq p hp h
      subst hpe
      have hf1 : p.comments.filter (fun c => c.id == server.id) = [] :=
        List.filter_eq_nil_iff.mpr fun c hc => by
          simpa using hsfresh c hc
      have hf2 : p.comments.filter (fun c => c.id == tempId) = [] :=
        List.filter_eq_nil_iff.mpr fun c hc => by
          simpa using hfresh c hc
      simp [h, hscontent, List.filter_append, hf1, hf2, hsid]
    · simp only [if_neg h] at hid
      exact absurd hid h
  · have hroll := commentRollback_optimistic_eq postId post
      (mkTempComment u postId tempId now text) posts huniq
      (by simpa [mkTempComment] using hfresh)
    cases failData <;>
      simpa [handleComment, hguard, hne, htempid] using hroll
  · cases failData <;> simp [handleComment, hguard, hne]
  · have hroll := commentRollback_optimistic_eq postId post
      (mkTempComment u postId tempId now text) posts huniq
      (by simpa [mkTempComment] using hfresh)
    simpa [handleComment, hguard, hne, htempid] using hroll

/-- A concrete server-assigned comment echoing the submitted text. -/
def exServerComment : Comment :=
  { id := 99, post_id := 42, user_id := 1, content := "nice!", created_at := 1234
    user := { id := 1, name := "Ann" } }

/-- Concrete comment input buffers: post 42 holds text needing a trim. -/
def exBuffers : Nat → Option String :=
  fun k => if k = 42 then some "  nice!  " else none

/-- Witness for C2 on a concrete feed: the buffer is cleared, a failing
remote call restores the post list exactly and surfaces the fallback
message, and a successful call leaves the server comment as the only one
with its id. -/
theorem C2_witness :
    (handleComment (some exUser) 42 exBuffers [exPost] 1000 1234
        CommentRemote.fault).buffers 42 = some "" ∧
    (handleComment (some exUser) 42 exBuffers [exPost] 1000 1234
        (CommentRemote.resp false none none)).posts = [exPost] ∧
    (handleComment (some exUser) 42 exBuffers [exPost] 1000 1234
        (CommentRemote.resp false none none)).error = some "Failed to add comment" ∧
    (handleComment (some exUser) 42 exBuffers [exPost] 1000 1234
        CommentRemote.fault).posts = [exPost] := by
  obtain ⟨h1, h2, h3, h4, h5, h6⟩ := C2_comment_lifecycle exUser 42 exBuffers [exPost] exPost
    1000 1234 "  nice!  " "nice!" exServerComment none none
    (by decide) (by decide) (by decide) (by decide) (by decide) (by decide)
    (by decide) (by decide) (by decide)
  exact ⟨h1 CommentRemote.fault, h4, h5, h6⟩

/-- Counterexample to C3 as stated: for the falsy payload `X = 0`, a 200
response with body `{data: 0}` does not yield `data = 0` — JS `||` falls
back to the whole body because `0` is falsy, not only when the `data` key
is absent. -/
theorem C3_counterexample :
    (mkEnvelope true (Json.obj [("data", Json.num 0)])).success = true ∧
    (mkEnvelope true (Json.obj [("data", Json.num 0)])).data
      = some (Json.obj [("data", Json.num 0)]) ∧
    some (Json.obj [("data", Json.num 0)]) ≠ some (Json.num 0) :=
  ⟨rfl, rfl, fun h => Json.noConfusion (Option.some.inj h)⟩

/-- C3 (amended): a 200 response with body `{data: X}` yields
`{success:true, data:X}` for every truthy `X`, and falls back to the whole
body when the `data` key is absent; a 422 response with body
`{message:M, errors:E}` yields `{success:false, message:M, errors:E}` for
every truthy `M`. -/
theorem C3_envelope_construction (X M E body : Json)
    (hX : X.truthy = true) (hM : M.truthy = true)
    (hbody : body.lookup "data" = none) :
    mkEnvelope true (Json.obj [("data", X)]) =
      { success := true, data := some X, message := none } ∧
    (mkEnvelope true body).success = true ∧
    (mkEnvelope true body).data = some body ∧
    mkEnvelope false (Json.obj [("message", M), ("errors", E)]) =
      { success := false, message := some M, errors := some E } := by
  refine ⟨?_, rfl, ?_, ?_⟩
  · simp [mkEnvelope, Json.lookup, List.lookup, jsOr, hX]
  · simp [mkEnvelope, jsOr, hbody]
  · simp [mkEnvelope, Json.lookup, List.lookup, jsOr, hM]

/-- Witness for C3 (amended) at truthy payloads. -/
theorem C3_witness :
    mkEnvelope true (Json.obj [("data", Json.str "x")]) =
      { success := true, data := some (Json.str "x"), message := none } ∧
    mkEnvelope false (Json.obj [("message", Json.str "m"), ("errors", Json.obj [])]) =
      { success := false, message := some (Json.str "m"), errors := some (Json.obj []) } := by
  obtain ⟨h1, _, _, h4⟩ := C3_envelope_construction (Json.str "x") (Json.str "m")
    (Json.obj []) (Json.str "payload") (by decide) (by decide) rfl
  exact ⟨h1, h4⟩

/-- C4: a request that has not settled within the `API_TIMEOUT` budget is
aborted and returns exactly
`{success:false, message:"Request timeout. Please try again."}` (no data,
no errors), and the budget is 10,000 ms. -/
theorem C4_timeout_abort (settleTime : Option Nat) (result : FetchOutcome)
    (h : ∀ t, settleTime = some t → API_TIMEOUT < t) :
    request (fetchWithTimeout settleTime result) =
      { success := false, message := some (.str "Request timeout. Please try again.") } ∧
    API_TIMEOUT = 10000 := by
  refine ⟨?_, rfl⟩
  cases settleTime with
  | none => rfl
  | some t =>
      have ht := h t rfl
      simp [fetchWithTimeout, ht, request]

/-- Witness for C4: a call that would settle at 10,001 ms with a successful
response is nonetheless aborted and mapped to the timeout envelope. -/
theorem C4_witness :
    request (fetchWithTimeout (some 10001) (FetchOutcome.settled true Json.null)) =
      { success := false, message := some (.str "Request timeout. Please try again.") } ∧
    API_TIMEOUT = 10000 :=
  C4_timeout_abort (some 10001) (FetchOutcome.settled true Json.null)
    (by
      intro t ht
      injection ht with h
      subst h
      decide)

/-- C5: for every transport outcome both `request` and `createPostWithFile`
return an envelope (never raise): any envelope with `success=false` carries
a message, and every fault (throw) is mapped to `success=false` with a
plain string description and no `data`/`errors` — the raw fault object
never enters the envelope. -/
theorem C5_transport_envelope (o : FetchOutcome) :
    ((request o).success = false → (request o).message.isSome = true) ∧
    (o.isFault = true →
      (request o).success = false ∧ (request o).data = none ∧ (request o).errors = none ∧
      ∃ m : String, (request o).message = some (Json.str m)) ∧
    ((createPostWithFile o).success = false → (createPostWithFile o).message.isSome = true) ∧
    (o.isFault = true →
      (createPostWithFile o).success = false ∧ (createPostWithFile o).data = none ∧
      (createPostWithFile o).errors = none ∧
      ∃ m : String, (createPostWithFile o).message = some (Json.str m)) := by
  cases o with
  | settled ok body =>
      cases ok
      · exact ⟨fun _ => rfl, fun hf => Bool.noConfusion hf,
               fun _ => rfl, fun hf => Bool.noConfusion hf⟩
      · exact ⟨fun hf => Bool.noConfusion hf, fun hf => Bool.noConfusion hf,
               fun hf => Bool.noConfusion hf, fun hf => Bool.noConfusion hf⟩
  | threw name msg =>
      by_cases h : name = "AbortError"
      · subst h
        exact ⟨fun _ => rfl,
               fun _ => ⟨rfl, rfl, rfl, "Request timeout. Please try again.", rfl⟩,
               fun _ => rfl,
               fun _ => ⟨rfl, rfl, rfl, "Request timeout. Please try again.", rfl⟩⟩
      · have hr : request (.threw name msg)
            = { success := false
                message := some (.str (jsOrStr (some msg) "Network error occurred")) } := by
          simp [request, h]
        have hc : createPostWithFile (.threw name msg)
            = { success := false
                message := some (.str (jsOrStr (some msg) "Network error occurred")) } := by
          simp [createPostWithFile, h]
        rw [hr, hc]
        exact ⟨fun _ => rfl,
               fun _ => ⟨rfl, rfl, rfl, jsOrStr (some msg) "Network error occurred", rfl⟩,
               fun _ => rfl,
               fun _ => ⟨rfl, rfl, rfl, jsOrStr (some msg) "Network error occurred", rfl⟩⟩
  | threwNonError =>
      exact ⟨fun _ => rfl,
             fun _ => ⟨rfl, rfl, rfl, "An unexpected error occurred", rfl⟩,
             fun _ => rfl,
             fun _ => ⟨rfl, rfl, rfl, "An unexpected error occurred", rfl⟩⟩

/-- Witness for C5 at a non-`Error` throw. -/
theorem C5_witness :
    (request FetchOutcome.threwNonError).success = false ∧
    (request FetchOutcome.threwNonError).data = none ∧
    (request FetchOutcome.threwNonError).errors = none ∧
    (createPostWithFile FetchOutcome.threwNonError).success = false := by
  obtain ⟨h1, h2, h3, h4⟩ := C5_transport_envelope FetchOutcome.threwNonError
  obtain ⟨a, b, c, _, _⟩ := h2 rfl
  obtain ⟨a2, _, _, _, _⟩ := h4 rfl
  exact ⟨a, b, c, a2⟩

/-- A concrete feed state: page 1 of 3 loaded, more pages available. -/
def exFeedState : FeedState :=
  { posts := [], pagination := some { total := 30, per_page := 10, current_page := 1, last_page := 3 }
    hasMorePosts := true, isLoadingMore := false, error := none }

/-- A concrete successful response carrying page 2 of 3. -/
def exRemote2 : PostsRemote :=
  { success := true
    data := some { posts := [], pagination := { total := 30, per_page := 10, current_page := 2, last_page := 3 } }
    message := none }

/-- A concrete successful response carrying page 3 of 3. -/
def exRemote3 : PostsRemote :=
  { success := true
    data := some { posts := [], pagination := { total := 30, per_page := 10, current_page := 3, last_page := 3 } }
    message := none }

/-- C6: the claim fails on the code — `getPosts` discards its page
argument. Evaluated at the failing input: starting from page 1 of 3 the
dashboard computes `nextPage = 2`, and after adopting a page-2-of-3
response it computes `nextPage = 3` (lines 301-302); but the endpoint
`getPosts` actually requests is the bare posts endpoint for every
argument pair, so the two fetches are the identical request — the same
page is fetched twice, while the claim requires pages 2 and then 3. The
cursor half of the claim does hold on the adopted responses: after page 2
of 3, `hasMorePosts` is true; after page 3 of 3, it is false. -/
theorem C6_same_page_fetched_twice :
    loadMoreNextPage exFeedState = some 2 ∧
    loadMoreNextPage (loadMorePostsStep exFeedState exRemote2) = some 3 ∧
    (∀ page perPage : Nat, getPostsEndpoint page perPage = API_POSTS_ENDPOINT) ∧
    getPostsEndpoint 2 10 = getPostsEndpoint 3 10 ∧
    (loadMorePostsStep exFeedState exRemote2).hasMorePosts = true ∧
    (loadMorePostsStep (loadMorePostsStep exFeedState exRemote2) exRemote3).hasMorePosts
      = false :=
  ⟨by decide, by decide, fun _ _ => rfl, rfl, by decide, by decide⟩

/-- Two provisional comments with distinct fresh ids, used to model two
overlapping comment submissions. -/
def exTemp1 : Comment :=
  { id := 1000, post_id := 42, user_id := 1, content := "a", created_at := 1
    user := { id := 1, name := "Ann" } }

/-- See `exTemp1`. -/
def exTemp2 : Comment :=
  { id := 1001, post_id := 42, user_id := 1, content := "b", created_at := 2
    user := { id := 1, name := "Ann" } }

/-- Counterexample to C7 as stated: the like rollback is not a pure
function of the previous state — it writes the `is_liked`/`likes_count`
values captured at trigger time. Interleave two like actions on post 42
(initially `isLiked=false, likesCount=10`): A applies its optimistic
toggle (`true,11`), B applies its toggle against that (`false,10`,
snapshot `true,11`), then both remote calls fail and each reverts to its
own captured snapshot (A: `false,10`, then B: `true,11`). Although every
remote call failed, the final state is `(true,11)`, not the pre-overlap
`(false,10)` — an update is lost, contradicting the claim. -/
theorem C7_counterexample :
    ((likeRevert 42 true 11
        (likeRevert 42 false 10
          (likeOptimistic 42 (likeOptimistic 42 [exPost])))).map
        (fun p => (p.is_liked, p.likes_count)) = [(true, 11)]) ∧
    likeRevert 42 true 11
        (likeRevert 42 false 10
          (likeOptimistic 42 (likeOptimistic 42 [exPost]))) ≠ [exPost] ∧
    exPost.is_liked = false ∧ exPost.likes_count = 10 :=
  ⟨by decide, by decide, rfl, rfl⟩

/-- Two overlapping comment submissions on the same post that both fail
cancel exactly: the rollbacks remove by provisional id from the current
state, so no update is lost. -/
theorem commentRollback_overlap_eq (postId : Nat) (post : Post) (c1 c2 : Comment)
    (posts : List Post)
    (huniq : ∀ q ∈ posts, q.id = postId → q = post)
    (hfresh1 : ∀ c ∈ post.comments, c.id ≠ c1.id)
    (hfresh2 : ∀ c ∈ post.comments, c.id ≠ c2.id)
    (hc12 : c1.id ≠ c2.id) :
    commentRollback postId c2.id
        (commentRollback postId c1.id
          (commentOptimistic postId c2 (commentOptimistic postId c1 posts))) = posts := by
  induction posts with
  | nil => rfl
  | cons p ps ih =>
      have ih2 := ih fun q hq hid => huniq q (by simp [hq]) hid
      simp only [commentOptimistic, commentRollback, List.map_cons] at ih2 ⊢
      by_cases h : p.id = postId
      · have hpe : p = post := huniq p (by simp) h
        subst hpe
        have hf1 : ((p.comments ++ [c1]) ++ [c2]).filter (fun c => c.id != c1.id)
            = p.comments ++ [c2] := by
          rw [List.filter_append, List.filter_append]
          have e1 : p.comments.filter (fun c => c.id != c1.id) = p.comments :=
            List.filter_eq_self.mpr fun c hc => by simpa using hfresh1 c hc
          have e2 : [c1].filter (fun c => c.id != c1.id) = ([] : List Comment) := by simp
          have e3 : [c2].filter (fun c => c.id != c1.id) = [c2] := by
            simp [Ne.symm hc12]
          rw [e1, e2, e3, List.append_nil]
        have hf2 : (p.comments ++ [c2]).filter (fun c => c.id != c2.id) = p.comments := by
          rw [List.filter_append]
          have e1 : p.comments.filter (fun c => c.id != c2.id) = p.comments :=
            List.filter_eq_self.mpr fun c hc => by simpa using hfresh2 c hc
          simp [e1]
        simp only [if_pos h, List.cons.injEq]
        refine ⟨?_, ih2⟩
        rw [hf1, hf2, show p.comments_count + 1 + 1 - 1 - 1 = p.comments_count by ring]
      · simp only [if_neg h, ih2]

/-- C7 (amended): the optimistic apply transitions and the comment
confirm/rollback are pure functions of the previous post list keyed by
entity id — in particular two overlapping failed comment submissions on
the same post cancel exactly — but the like failure rollback writes the
`is_liked`/`likes_count` captured at trigger time, so after two
overlapping failed like actions on the same post the feed is left at the
optimistic values of the first action instead of the pre-overlap state. -/
theorem C7_transitions_amended (postId : Nat) (posts : List Post) (post : Post)
    (c1 c2 : Comment)
    (hfind : posts.find? (fun p => p.id = postId) = some post)
    (huniq : ∀ q ∈ posts, q.id = postId → q = post)
    (hfresh1 : ∀ c ∈ post.comments, c.id ≠ c1.id)
    (hfresh2 : ∀ c ∈ post.comments, c.id ≠ c2.id)
    (hc12 : c1.id ≠ c2.id) :
    commentRollback postId c2.id
        (commentRollback postId c1.id
          (commentOptimistic postId c2 (commentOptimistic postId c1 posts))) = posts ∧
    (∀ q ∈ likeRevert postId (!post.is_liked)
            (if post.is_liked then post.likes_count - 1 else post.likes_count + 1)
            (likeRevert postId post.is_liked post.likes_count
              (likeOptimistic postId (likeOptimistic postId posts))),
        q.id = postId →
          q.is_liked = (!post.is_liked) ∧
          q.likes_count
            = (if post.is_liked then post.likes_count - 1 else post.likes_count + 1)) := by
  refine ⟨commentRollback_overlap_eq postId post c1 c2 posts huniq hfresh1 hfresh2 hc12, ?_⟩
  intro q hq hid
  simp only [likeOptimistic, likeRevert, List.map_map, List.mem_map, Function.comp] at hq
  obtain ⟨p, hp, rfl⟩ := hq
  by_cases h : p.id = postId
  · simp [h]
  · simp only [if_neg h] at hid
    exact absurd hid h

/-- Witness for C7 (amended): two overlapping failed comment submissions
on the concrete post cancel exactly. -/
theorem C7_witness :
    commentRollback 42 exTemp2.id
        (commentRollback 42 exTemp1.id
          (commentOptimistic 42 exTemp2 (commentOptimistic 42 exTemp1 [exPost]))) = [exPost] :=
  (C7_transitions_amended 42 [exPost] exPost exTemp1 exTemp2
    (by decide) (by decide) (by decide) (by decide) (by decide)).1

/-- C8: in a browser context with a stored credential, `logout` clears the
local credential (both storage locations) if and only if the remote call
returned `success=true`; on failure the whole store is preserved, and the
remote envelope is returned unchanged either way. -/
theorem C8_logout_clears_iff (hasWindow : Bool) (resp : Envelope) (st : SessionStore)
    (tok : String) (hw : hasWindow = true) (hl : st.localToken = some tok) :
    ((logout hasWindow resp st).1.localToken = none ↔ resp.success = true) ∧
    (resp.success = false → (logout hasWindow resp st).1 = st) ∧
    (resp.success = true →
      (logout hasWindow resp st).1 = { localToken := none, cookieToken := none }) ∧
    (logout hasWindow resp st).2 = resp := by
  subst hw
  cases hs : resp.success
  · simp [logout, hs, hl]
  · simp [logout, hs, removeToken]

/-- Witness for C8: a concrete store with a token is cleared on a
successful logout envelope and preserved on a failing one. -/
theorem C8_witness :
    (logout true { success := true } { localToken := some "tok", cookieToken := some "tok" }).1
      = { localToken := none, cookieToken := none } ∧
    (logout true { success := false } { localToken := some "tok", cookieToken := some "tok" }).1
      = { localToken := some "tok", cookieToken := some "tok" } := by
  have h1 := C8_logout_clears_iff true { success := true }
    { localToken := some "tok", cookieToken := some "tok" } "tok" rfl rfl
  have h2 := C8_logout_clears_iff true { success := false }
    { localToken := some "tok", cookieToken := some "tok" } "tok" rfl rfl
  exact ⟨h1.2.2.1 rfl, h2.2.1 rfl⟩

/-- C9: client-side validation short-circuits before any network call — a
comment submission whose trimmed buffer is empty or absent issues no
request and changes no feed state, and a post form submission with empty
trimmed content or no selected file is rejected with a validation message
before any request. -/
theorem C9_validation_short_circuit (u : Option User) (postId : Nat)
    (buffers : Nat → Option String) (posts : List Post) (tempId now : Nat)
    (remote : CommentRemote)
    (h : (buffers postId).map jsTrim = none ∨ (buffers postId).map jsTrim = some "") :
    (handleComment u postId buffers posts tempId now remote).requested = false ∧
    (handleComment u postId buffers posts tempId now remote).posts = posts ∧
    (handleComment u postId buffers posts tempId now remote).buffers = buffers ∧
    (handleComment u postId buffers posts tempId now remote).error = none ∧
    (∀ c f, jsTrim c = "" ∨ f = none →
      postFormSubmit c f
        = SubmitAction.rejected "Please fill in all fields and select an image") := by
  have hmain : handleComment u postId buffers posts tempId now remote
      = { posts := posts, buffers := buffers, error := none, requested := false } := by
    rcases h with h | h
    · cases u <;> simp [handleComment, h]
    · cases u <;> simp [handleComment, h]
  rw [hmain]
  refine ⟨rfl, rfl, rfl, rfl, ?_⟩
  intro c f hcf
  cases f with
  | none => rfl
  | some file =>
      rcases hcf with hc | hf
      · simp [postFormSubmit, hc]
      · exact absurd hf (by simp)

/-- Witness for C9: a whitespace-only comment buffer issues no request and
leaves the feed untouched; a post form with whitespace-only content is
rejected. -/
theorem C9_witness :
    (handleComment (some exUser) 42 (fun _ => some "   ") [exPost] 1000 1234
        CommentRemote.fault).requested = false ∧
    (handleComment (some exUser) 42 (fun _ => some "   ") [exPost] 1000 1234
        CommentRemote.fault).posts = [exPost] ∧
    postFormSubmit "  " (some "photo.png")
      = SubmitAction.rejected "Please fill in all fields and select an image" := by
  have h := C9_validation_short_circuit (some exUser) 42 (fun _ => some "   ") [exPost]
    1000 1234 CommentRemote.fault (Or.inr (by decide))
  exact ⟨h.1, h.2.1, h.2.2.2.2 "  " (some "photo.png") (Or.inl (by decide))⟩

/-- C10: every `setPosts` transition of `handleLike` and `handleComment`
(optimistic apply, like revert, comment confirm, comment rollback) leaves
every post whose id differs from the target id unchanged, position by
position. -/
theorem C10_other_posts_unchanged (postId : Nat) (posts : List Post) (i : Nat)
    (hi : i < posts.length) (hne : posts[i].id ≠ postId)
    (snapLiked : Bool) (snapCount : Int) (temp server : Comment) (tempId : Nat) :
    (likeOptimistic postId posts)[i]? = some posts[i] ∧
    (likeRevert postId snapLiked snapCount posts)[i]? = some posts[i] ∧
    (commentOptimistic postId temp posts)[i]? = some posts[i] ∧
    (commentConfirm postId tempId server posts)[i]? = some posts[i] ∧
    (commentRollback postId tempId posts)[i]? = some posts[i] := by
  have hget : posts[i]? = some posts[i] := List.getElem?_eq_getElem hi
  refine ⟨?_, ?_, ?_, ?_, ?_⟩ <;>
    simp [likeOptimistic, likeRevert, commentOptimistic, commentConfirm, commentRollback,
      List.getElem?_map, hget, hne]

/-- A second concrete feed post with a different id. -/
def exOtherPost : Post :=
  { id := 43, user_id := 5, content := "other", image_url := "img2"
    likes_count := 3, comments_count := 0, created_at := 200, updated_at := 200
    user := { id := 5, name := "Dee" }, comments := [], is_liked := true }

/-- Witness for C10: in a two-post feed, actions targeting post 42 leave
post 43 unchanged in place. -/
theorem C10_witness :
    (likeOptimistic 42 [exPost, exOtherPost])[1]? = some exOtherPost ∧
    (commentRollback 42 1000 [exPost, exOtherPost])[1]? = some exOtherPost := by
  have h := C10_other_posts_unchanged 42 [exPost, exOtherPost] 1 (by decide) (by decide)
    true 5 exTemp1 exServerComment 1000
  exact ⟨h.1, h.2.2.2.2⟩
